import Mathlib

/-!
Shallow embedding of the listing filter-and-summarize pipeline of
`src/app.py` (a pandas dashboard), together with proofs of the
spec's claims about it.

Modelling conventions:
* a pandas DataFrame of listings is an ordered `List Listing`;
* the `p` (price) and `grade` columns are modelled as `ℚ`
  (the claims under study only compare, group and average prices);
* `timestamp` is modelled as `ℕ` (the pipeline only orders and
  compares timestamps for equality after `pd.to_datetime`);
* a possibly missing `id` cell is `Option String` (pandas `NaN`
  becomes `none`);
* `Series.mean into max into min` on an empty series yields the float `NaN`;
  such a statistic is modelled by `PandasStat.nan`.
-/

/-- One row of the listings DataFrame, with the source's column names:
`id` (opaque ticket id, possibly missing), `sid` (section label),
`r` (row label), `p` (price), `grade`, `timestamp`. -/
structure Listing where
  id : Option String
  sid : String
  r : String
  p : ℚ
  grade : ℚ
  timestamp : ℕ
deriving DecidableEq

/-- The filter inputs collected by the sidebar widgets of `src/app.py`
lines 34-50: `selected_section` and `selected_row` use the string
sentinel "All" for no filter, `filter_id` uses the empty string, and
the price slider yields the inclusive range `min_price ..= max_price`. -/
structure Criteria where
  selected_section : String
  selected_row : String
  filter_id : String
  min_price : ℚ
  max_price : ℚ
deriving DecidableEq

/-- Checks that `pat` occurs literally at the head of `s` (character
lists); used by the spec-side literal-substring predicate. -/
def prefixCheck : List Char → List Char → Bool
  | [], _ => true
  | _ :: _, [] => false
  | a :: as, b :: bs => a == b && prefixCheck as bs

/-- Checks that `pat` occurs literally and contiguously somewhere in `s`;
used by the spec-side literal-substring predicate. -/
def occursIn (pat : List Char) : List Char → Bool
  | [] => prefixCheck pat []
  | b :: bs => prefixCheck pat (b :: bs) || occursIn pat bs

/-- One atom of a compiled Python regular expression, in the fragment the
model embeds: a literal character, or the any-character dot. -/
inductive RAtom where
  | lit : Char → RAtom
  | dot : RAtom
deriving DecidableEq

/-- Compiles one pattern character the way Python `re` reads it: `.` is
the any-character atom; the regex operator and grouping characters
(whose semantics — including the `re.error` raised by an unmatched
parenthesis or bracket — are outside the embedded fragment) compile to
`none`; every other character is a literal atom. -/
def parseAtom (c : Char) : Option RAtom :=
  if c = '.' then some RAtom.dot
  else if c = '^' ∨ c = '$' ∨ c = '*' ∨ c = '+' ∨ c = '?' ∨ c = '[' ∨ c = ']' ∨
      c = '\\' ∨ c = '|' ∨ c = '(' ∨ c = ')' ∨ c = Char.ofNat 123 ∨ c = Char.ofNat 125 then
    none
  else some (RAtom.lit c)

/-- Compiles a whole pattern; `none` as soon as any character falls
outside the embedded regex fragment. -/
def parseAtoms : List Char → Option (List RAtom)
  | [] => some []
  | c :: cs =>
    match parseAtom c, parseAtoms cs with
    | some a, some as => some (a :: as)
    | _, _ => none

/-- Whether an atom matches one character under `re.IGNORECASE` (the
`case=False` of line 62): literals compare lowercased, and the dot
matches any character except a newline. -/
def ratomMatches : RAtom → Char → Bool
  | RAtom.lit c, d => c.toLower == d.toLower
  | RAtom.dot, d => d != '\n'

/-- Whether the compiled pattern matches at the head of `s`. -/
def atomsPrefix : List RAtom → List Char → Bool
  | [], _ => true
  | _ :: _, [] => false
  | a :: as, c :: cs => ratomMatches a c && atomsPrefix as cs

/-- Whether the compiled pattern matches anywhere in `s` — the semantics
of `re.search`, which is what `Series.str.contains` performs. -/
def atomsSearch (pat : List RAtom) : List Char → Bool
  | [] => atomsPrefix pat []
  | c :: cs => atomsPrefix pat (c :: cs) || atomsSearch pat cs

/-- Models the pandas call `Series.str.contains(pat, case=False, na=False)`
of `src/app.py` line 62 with its default `regex=True`: a missing id
yields `false` (`na=False`); otherwise the pattern is compiled as a
Python regular expression and searched for in the id under
`re.IGNORECASE`.  The model embeds the fragment of regex syntax made of
literal characters and the any-character dot; outside that fragment
(regex operators, and invalid patterns on which the library raises
`re.error`) `parseAtoms` is `none` and the model returns `false` — every
claim about an active id filter is stated within the fragment. -/
def idContains (i : Option String) (pat : String) : Bool :=
  match i with
  | none => false
  | some s =>
    match parseAtoms pat.toList with
    | some atoms => atomsSearch atoms s.toList
    | none => false

/-- Line 55-56 of `src/app.py`: keep rows whose `sid` equals the selected
section, unless the sentinel "All" is selected. -/
def sectionFilter (c : Criteria) (l : List Listing) : List Listing :=
  if c.selected_section ≠ "All" then l.filter (fun x => x.sid == c.selected_section) else l

/-- Line 58-59 of `src/app.py`: keep rows whose `r` equals the selected
row, unless the sentinel "All" is selected. -/
def rowFilter (c : Criteria) (l : List Listing) : List Listing :=
  if c.selected_row ≠ "All" then l.filter (fun x => x.r == c.selected_row) else l

/-- Line 61-62 of `src/app.py`: `if filter_id:` — the Python truthiness
test means the filter is applied exactly when `filter_id` is non-empty. -/
def idFilter (c : Criteria) (l : List Listing) : List Listing :=
  if c.filter_id ≠ "" then l.filter (fun x => idContains x.id c.filter_id) else l

/-- Line 64 of `src/app.py`: keep rows with
`min_price <= p` and `p <= max_price` (inclusive bounds). -/
def priceFilter (c : Criteria) (l : List Listing) : List Listing :=
  l.filter (fun x => decide (c.min_price ≤ x.p) && decide (x.p ≤ c.max_price))

/-- Lines 53-64 of `src/app.py`: the four masks applied in source order
(section, then row, then id, then price) to a copy of the frame. -/
def filterListings (df : List Listing) (c : Criteria) : List Listing :=
  priceFilter c (idFilter c (rowFilter c (sectionFilter c df)))

/-- A pandas statistic over the price column: `Series.mean`, `Series.max`
and `Series.min` return the float `NaN` on an empty series and an
ordinary number otherwise. -/
inductive PandasStat where
  | nan : PandasStat
  | val : ℚ → PandasStat
deriving DecidableEq

/-- Models `Series.mean`: `NaN` on an empty series, else the arithmetic
mean of the entries. -/
def seriesMean : List ℚ → PandasStat
  | [] => PandasStat.nan
  | x :: xs => PandasStat.val ((x :: xs).sum / (x :: xs).length)

/-- Models `Series.max`: `NaN` on an empty series, else the greatest entry. -/
def seriesMax : List ℚ → PandasStat
  | [] => PandasStat.nan
  | x :: xs => PandasStat.val (xs.foldl max x)

/-- Models `Series.min`: `NaN` on an empty series, else the least entry. -/
def seriesMin : List ℚ → PandasStat
  | [] => PandasStat.nan
  | x :: xs => PandasStat.val (xs.foldl min x)

/-- The data summary shown at `src/app.py` lines 70-73: record count and
mean, maximum and minimum price. -/
structure Summary where
  count : ℕ
  meanPrice : PandasStat
  maxPrice : PandasStat
  minPrice : PandasStat
deriving DecidableEq

/-- Lines 70-73 of `src/app.py`: `len(filtered_df)` and the pandas
mean, max and min of the `p` column of the filtered subset. -/
def summarize (subset : List Listing) : Summary :=
  { count := subset.length
    meanPrice := seriesMean (subset.map Listing.p)
    maxPrice := seriesMax (subset.map Listing.p)
    minPrice := seriesMin (subset.map Listing.p) }

/-- Lines 90-92 of `src/app.py`: `value_counts` tallies each distinct
price, and the subsequent `sort_values into Price` orders the (price, count)
pairs by ascending price (the prices are pairwise distinct, so that
order is unique). -/
def priceDistribution (subset : List Listing) : List (ℚ × ℕ) :=
  let prices := subset.map Listing.p
  (List.insertionSort (fun a b : ℚ => a ≤ b) prices.dedup).map (fun q => (q, prices.count q))

instance : DecidableRel (fun a b : Listing => a.timestamp ≤ b.timestamp) :=
  fun a b => inferInstanceAs (Decidable (a.timestamp ≤ b.timestamp))

/-- Line 83 of `src/app.py`: `filtered_df.sort_values by timestamp`.
pandas defaults to `kind=quicksort`, which fixes only the key order;
the relative order of equal timestamps is implementation-defined.  The
model uses a sort that is one admissible outcome (the claims proved
from it do not depend on the tie order). -/
def sortByTime (subset : List Listing) : List Listing :=
  List.insertionSort (fun a b : Listing => a.timestamp ≤ b.timestamp) subset

/-- Lines 110 and 122 of `src/app.py`:
`len(sorted_filtered_df[timestamp].unique()) > 1`.  pandas `unique`
keeps first occurrences and `List.dedup` keeps last ones, but only the
number of distinct values is consumed, and that agrees. -/
def hasMultipleDistinctTimestamps (subset : List Listing) : Bool :=
  decide (1 < ((subset.map Listing.timestamp).dedup).length)

/-- Models `float of the p column minimum` from `src/app.py` line 48: the least
price of the data set.  On an empty frame pandas would yield `NaN`
(and the slider would fail); the model returns `0` there, which no
claim depends on since filtering an empty set is unaffected by bounds. -/
def seriesMinDefault : List ℚ → ℚ
  | [] => 0
  | x :: xs => xs.foldl min x

/-- Lines 36, 40, 43, 46-50 of `src/app.py` with every widget left at
its no-filter position: section and row "All", empty id pattern, and
the slider's default range `(float of the p column minimum, 1600.0)` — the
default maximum is the hardcoded constant `1600.0`, not the data
maximum.  The program constructs these defaults exactly when the frame
is nonempty and its minimum price is at most 1600; otherwise the slider
call itself raises (a NaN minimum on an empty frame, or a minimum above
the 1600.0 maximum) and no criteria ever exist.  The model keeps
`defaultCriteria` total, and every claim stated about it stays inside
that valid domain. -/
def defaultCriteria (df : List Listing) : Criteria :=
  { selected_section := "All"
    selected_row := "All"
    filter_id := ""
    min_price := seriesMinDefault (df.map Listing.p)
    max_price := 1600 }

/-- Names for the four sub-filter masks of `src/app.py` lines 55-64. -/
inductive SubFilter where
  | sec : SubFilter
  | row : SubFilter
  | idf : SubFilter
  | price : SubFilter
deriving DecidableEq

/-- Dispatch a named sub-filter to its definition. -/
def applySubFilter : SubFilter → Criteria → List Listing → List Listing
  | SubFilter.sec => sectionFilter
  | SubFilter.row => rowFilter
  | SubFilter.idf => idFilter
  | SubFilter.price => priceFilter

/-- Apply a sequence of sub-filters left to right. -/
def applyAll (fs : List SubFilter) (c : Criteria) (l : List Listing) : List Listing :=
  fs.foldl (fun acc f => applySubFilter f c acc) l

/-- The order in which `src/app.py` lines 53-64 applies the masks. -/
def implOrder : List SubFilter :=
  [SubFilter.sec, SubFilter.row, SubFilter.idf, SubFilter.price]

/-- The script state threaded through one rerun of `src/app.py`:
the cached source frame `df` and the derived values. -/
structure AppState where
  df : List Listing
  filtered_df : List Listing
  sorted_filtered_df : List Listing
  price_distribution : List (ℚ × ℕ)
  dataSummary : Summary
  showTrendCharts : Bool

/-- One rerun of the pipeline portion of `src/app.py` (lines 53-64, 70-73,
83, 90-92, 110/122): every assignment writes a derived name; no statement
assigns to `df` or calls an in-place mutation on it (`df.copy()` at line
53 reads it only). -/
def runPipeline (c : Criteria) (s : AppState) : AppState :=
  let fd := filterListings s.df c
  { s with
    filtered_df := fd
    dataSummary := summarize fd
    sorted_filtered_df := sortByTime fd
    price_distribution := priceDistribution fd
    showTrendCharts := hasMultipleDistinctTimestamps (sortByTime fd) }

/-- The retention predicate exactly as section 4.1 of the spec words it:
the conjunction of the four conditions (section sentinel or exact match,
row sentinel or exact match, empty pattern or case-insensitive id
containment, inclusive price bounds). -/
def specRetains (c : Criteria) (x : Listing) : Bool :=
  (c.selected_section == "All" || x.sid == c.selected_section) &&
  ((c.selected_row == "All" || x.r == c.selected_row) &&
  ((c.filter_id == "" || idContains x.id c.filter_id) &&
  (decide (c.min_price ≤ x.p) && decide (x.p ≤ c.max_price))))

/-- The id condition exactly as the spec words it in section 4.1: the
record's id contains the pattern as a case-insensitive literal
substring (a missing id contains nothing).  This is the spec's reading,
to be compared against the code's regex-based `idContains`. -/
def specIdContainsLiteral (i : Option String) (pat : String) : Bool :=
  match i with
  | none => false
  | some s => occursIn (pat.toList.map Char.toLower) (s.toList.map Char.toLower)

/-- The retention predicate with the id condition read literally as the
spec words it (case-insensitive substring containment), the reading the
original claim asserts of the program. -/
def specRetainsLiteral (c : Criteria) (x : Listing) : Bool :=
  (c.selected_section == "All" || x.sid == c.selected_section) &&
  ((c.selected_row == "All" || x.r == c.selected_row) &&
  ((c.filter_id == "" || specIdContainsLiteral x.id c.filter_id) &&
  (decide (c.min_price ≤ x.p) && decide (x.p ≤ c.max_price))))

/-- The per-mask retention predicate read off each `if` of lines 55-64:
an inactive mask keeps everything. -/
def subPred : SubFilter → Criteria → Listing → Bool
  | SubFilter.sec, c, x => c.selected_section == "All" || x.sid == c.selected_section
  | SubFilter.row, c, x => c.selected_row == "All" || x.r == c.selected_row
  | SubFilter.idf, c, x => c.filter_id == "" || idContains x.id c.filter_id
  | SubFilter.price, c, x => decide (c.min_price ≤ x.p) && decide (x.p ≤ c.max_price)

/-- Sample listing with all filters satisfied and a modest price. -/
def okListing : Listing :=
  { id := some "A", sid := "112", r := "5", p := 100, grade := 3, timestamp := 1 }

/-- Sample listing priced above the slider's default 1600 cap. -/
def pricyListing : Listing :=
  { id := some "E", sid := "112", r := "5", p := 2000, grade := 3, timestamp := 1 }

/-- Sample listing whose id cell is missing. -/
def nilIdListing : Listing :=
  { id := none, sid := "112", r := "5", p := 100, grade := 3, timestamp := 2 }

/-- Criteria with only the id filter active. -/
def cIdActive : Criteria :=
  { selected_section := "All", selected_row := "All", filter_id := "a"
    min_price := 0, max_price := 1600 }

/-- Sample listing whose id holds no literal dot. -/
def abListing : Listing :=
  { id := some "AB", sid := "112", r := "5", p := 100, grade := 3, timestamp := 1 }

/-- Criteria whose id pattern is the single regex metacharacter dot. -/
def cDot : Criteria :=
  { selected_section := "All", selected_row := "All", filter_id := "."
    min_price := 0, max_price := 1600 }

/-! ### Helper lemmas -/

lemma applySub_eq_filter (f : SubFilter) (c : Criteria) (l : List Listing) :
    applySubFilter f c l = l.filter (subPred f c) := by
  cases f with
  | sec =>
    by_cases h : c.selected_section = "All"
    · simp only [applySubFilter, sectionFilter, h, ne_eq, not_true_eq_false, if_false]
      exact (List.filter_eq_self.mpr fun x _ => by simp [subPred, h]).symm
    · simp only [applySubFilter, sectionFilter, if_pos h]
      exact List.filter_congr fun x _ => by simp [subPred, h]
  | row =>
    by_cases h : c.selected_row = "All"
    · simp only [applySubFilter, rowFilter, h, ne_eq, not_true_eq_false, if_false]
      exact (List.filter_eq_self.mpr fun x _ => by simp [subPred, h]).symm
    · simp only [applySubFilter, rowFilter, if_pos h]
      exact List.filter_congr fun x _ => by simp [subPred, h]
  | idf =>
    by_cases h : c.filter_id = ""
    · simp only [applySubFilter, idFilter, h, ne_eq, not_true_eq_false, if_false]
      exact (List.filter_eq_self.mpr fun x _ => by simp [subPred, h]).symm
    · simp only [applySubFilter, idFilter, if_pos h]
      exact List.filter_congr fun x _ => by simp [subPred, h]
  | price => rfl

lemma applyAll_cons (f : SubFilter) (fs : List SubFilter) (c : Criteria) (l : List Listing) :
    applyAll (f :: fs) c l = applyAll fs c (applySubFilter f c l) := rfl

lemma applyAll_eq_filter (fs : List SubFilter) (c : Criteria) (l : List Listing) :
    applyAll fs c l = l.filter (fun x => fs.all (fun f => subPred f c x)) := by
  induction fs generalizing l with
  | nil => simp [applyAll]
  | cons f fs ih =>
    rw [applyAll_cons, ih, applySub_eq_filter, List.filter_filter]
    exact List.filter_congr fun x _ => by rw [List.all_cons, Bool.and_comm]

lemma filterListings_eq_applyAll (df : List Listing) (c : Criteria) :
    filterListings df c = applyAll implOrder c df := rfl

lemma filterListings_eq_filter (df : List Listing) (c : Criteria) :
    filterListings df c = df.filter (specRetains c) := by
  rw [filterListings_eq_applyAll, applyAll_eq_filter]
  exact List.filter_congr fun x _ => by
    simp [implOrder, subPred, specRetains, Bool.and_assoc]

lemma all_of_perm {α : Type} {l₁ l₂ : List α} (h : l₁.Perm l₂) (g : α → Bool) :
    l₁.all g = l₂.all g := by
  induction h with
  | nil => rfl
  | cons x _ ih => rw [List.all_cons, List.all_cons, ih]
  | swap x y l =>
    rw [List.all_cons, List.all_cons, List.all_cons, List.all_cons,
      ← Bool.and_assoc, ← Bool.and_assoc, Bool.and_comm (g y) (g x)]
  | trans _ _ ih₁ ih₂ => rw [ih₁, ih₂]

lemma foldl_min_le_self (xs : List ℚ) (a : ℚ) : xs.foldl min a ≤ a := by
  induction xs generalizing a with
  | nil => exact le_refl a
  | cons y ys ih => exact le_trans (ih (min a y)) (min_le_left a y)

lemma foldl_min_le_mem {xs : List ℚ} {q : ℚ} (hq : q ∈ xs) (a : ℚ) :
    xs.foldl min a ≤ q := by
  induction xs generalizing a with
  | nil => cases hq
  | cons y ys ih =>
    rcases List.mem_cons.mp hq with h | h
    · subst h
      exact le_trans (foldl_min_le_self ys (min a q)) (min_le_right a q)
    · exact ih h (min a y)

lemma seriesMinDefault_le {l : List ℚ} {q : ℚ} (hq : q ∈ l) :
    seriesMinDefault l ≤ q := by
  cases l with
  | nil => cases hq
  | cons x xs =>
    rcases List.mem_cons.mp hq with h | h
    · subst h
      exact foldl_min_le_self xs q
    · exact foldl_min_le_mem h x

lemma one_lt_dedup_length_iff (l : List ℕ) :
    1 < l.dedup.length ↔ ∃ a b, a ∈ l ∧ b ∈ l ∧ a ≠ b := by
  constructor
  · intro h
    rcases hd : l.dedup with _ | ⟨a, _ | ⟨b, t⟩⟩
    · rw [hd] at h; exact absurd h (by simp)
    · rw [hd] at h; exact absurd h (by simp)
    · have ha : a ∈ l := List.mem_dedup.mp (by rw [hd]; exact List.mem_cons_self a _)
      have hb : b ∈ l :=
        List.mem_dedup.mp (by rw [hd]; exact List.mem_cons_of_mem a (List.mem_cons_self b t))
      have hnd := List.nodup_dedup l
      rw [hd] at hnd
      refine ⟨a, b, ha, hb, fun e => ?_⟩
      exact (List.nodup_cons.mp hnd).1 (e ▸ List.mem_cons_self b t)
  · rintro ⟨a, b, ha, hb, hab⟩
    have ha' : a ∈ l.dedup := List.mem_dedup.mpr ha
    have hb' : b ∈ l.dedup := List.mem_dedup.mpr hb
    rcases hd : l.dedup with _ | ⟨x, _ | ⟨y, t⟩⟩
    · rw [hd] at ha'; exact absurd ha' (List.not_mem_nil a)
    · rw [hd] at ha' hb'
      exact absurd ((List.mem_singleton.mp ha').trans (List.mem_singleton.mp hb').symm) hab
    · simp only [List.length_cons]; omega

lemma priceDistribution_eq (subset : List Listing) :
    priceDistribution subset =
      (List.insertionSort (fun a b : ℚ => a ≤ b) (subset.map Listing.p).dedup).map
        (fun q => (q, (subset.map Listing.p).count q)) := rfl

/-! ### Sanity examples from section 8 of the spec -/

example :
    filterListings [okListing, nilIdListing, pricyListing]
      { selected_section := "112", selected_row := "All", filter_id := ""
        min_price := 0, max_price := 1600 } = [okListing, nilIdListing] := by decide

example :
    priceDistribution [okListing, nilIdListing] = [(100, 2)] := by decide

example :
    hasMultipleDistinctTimestamps [okListing, nilIdListing] = true := by decide

/-! ### Claim theorems -/

/-- C1 counterexample: the claim reads the id condition as literal
case-insensitive substring containment, but line 62 leaves
`str.contains` at its default `regex=True`, so the pattern is a regular
expression.  With the pattern "." the code retains a record whose id
"AB" holds no literal dot (the regex dot matches any character), while
the claim's four conditions reject it — the program violates the
claimed retains-iff equivalence. -/
theorem filter_dot_pattern_claim_false :
    abListing ∈ filterListings [abListing] cDot ∧
      specRetainsLiteral cDot abListing = false := by decide

/-- C1 amended: the pipeline of masks at lines 53-64 retains a record if
and only if all four conditions hold, where the id condition is a
case-insensitive regular-expression search of the pattern in the id
(the `regex=True` default of `str.contains`; literal substring
containment only for patterns free of regex metacharacters, and
`re.error` on invalid patterns): the sequential masked selection equals
one pass of the conjunction.  The hypothesis confines the statement to
the regex fragment the model embeds (literal characters and the
any-character dot) — outside it the library applies operator semantics
or raises, neither of which is embedded. -/
theorem filterListings_retains_iff_regex (df : List Listing) (c : Criteria)
    (_hpat : (parseAtoms c.filter_id.toList).isSome = true) :
    filterListings df c = df.filter (specRetains c) :=
  filterListings_eq_filter df c

/-- C1 witness: on a concrete record set and a concrete supported
pattern, the masked selection equals the single-pass conjunction. -/
theorem filterListings_retains_iff_regex_witness :
    (parseAtoms cIdActive.filter_id.toList).isSome = true ∧
      filterListings [okListing, nilIdListing] cIdActive =
        [okListing, nilIdListing].filter (specRetains cIdActive) :=
  ⟨by decide, filterListings_retains_iff_regex [okListing, nilIdListing] cIdActive (by decide)⟩

/-- C2 counterexample: the claim says the empty subset's mean, max and min
price are signalled as an explicit no-data value rather than the NaN of
the underlying library; but lines 70-73 format the raw pandas statistics,
which all evaluate to NaN on the empty subset. -/
theorem summarize_empty_claim_false :
    ¬ ((summarize ([] : List Listing)).meanPrice ≠ PandasStat.nan ∧
       (summarize ([] : List Listing)).maxPrice ≠ PandasStat.nan ∧
       (summarize ([] : List Listing)).minPrice ≠ PandasStat.nan) := by
  intro h
  exact h.1 rfl

/-- C2 amended: on the empty subset the count is 0, and the mean, maximum
and minimum price are the NaN result of the pandas statistics on an empty
series — not an explicit no-data indicator, and not the numeric sentinel
zero. -/
theorem summarize_empty_nan :
    (summarize ([] : List Listing)).count = 0 ∧
    (summarize ([] : List Listing)).meanPrice = PandasStat.nan ∧
    (summarize ([] : List Listing)).maxPrice = PandasStat.nan ∧
    (summarize ([] : List Listing)).minPrice = PandasStat.nan ∧
    (summarize ([] : List Listing)).meanPrice ≠ PandasStat.val 0 := by
  refine ⟨rfl, rfl, rfl, rfl, ?_⟩
  intro h
  cases h

/-- C3 counterexample: on the record set with prices 100 and 2000 the
slider of lines 46-50 constructs successfully (its minimum 100.0 is
below its maximum 1600.0) and leaves the default range (100.0, 1600.0),
because the default maximum is the hardcoded constant 1600.0 of line 48,
not the data maximum; the record priced 2000 is then dropped, so
filtering with the no-filter criteria is not the identity. -/
theorem filter_default_drops_pricy :
    filterListings [okListing, pricyListing] (defaultCriteria [okListing, pricyListing]) ≠
      [okListing, pricyListing] := by decide

/-- C3 amended: filtering with the no-filter criteria (section and row
"All", empty id pattern, the default price range) returns the record set
unchanged provided the set is nonempty and every price is at most the
default slider maximum 1600; the lower bound, being the data minimum,
never excludes anything.  The two provisos delimit the record sets on
which the program reaches the filter at all: on an empty frame, or one
whose minimum price exceeds 1600, the slider construction itself raises
and no criteria exist. -/
theorem filter_default_identity (df : List Listing) (_hne : df ≠ [])
    (h : ∀ x ∈ df, x.p ≤ 1600) :
    filterListings df (defaultCriteria df) = df := by
  rw [filterListings_eq_filter]
  refine List.filter_eq_self.mpr fun x hx => ?_
  have h₁ : seriesMinDefault (df.map Listing.p) ≤ x.p :=
    seriesMinDefault_le (List.mem_map_of_mem Listing.p hx)
  have h₂ : x.p ≤ 1600 := h x hx
  simp [specRetains, defaultCriteria, h₁, h₂]

/-- C3 witness: on a concrete nonempty one-record set priced within the
default range, the default criteria are the identity filter. -/
theorem filter_default_identity_witness :
    [okListing] ≠ ([] : List Listing) ∧ (∀ x ∈ [okListing], x.p ≤ 1600) ∧
      filterListings [okListing] (defaultCriteria [okListing]) = [okListing] :=
  ⟨by decide, by decide, filter_default_identity [okListing] (by decide) (by decide)⟩

/-- C4: the filtered subset is a subsequence of the source order (each
mask is a mask over the previous selection) and filtering twice with the
same criteria equals filtering once. -/
theorem filterListings_sublist_and_idempotent (df : List Listing) (c : Criteria) :
    List.Sublist (filterListings df c) df ∧
      filterListings (filterListings df c) c = filterListings df c := by
  constructor
  · rw [filterListings_eq_filter]
    exact List.filter_sublist df
  · rw [filterListings_eq_filter df c, filterListings_eq_filter, List.filter_filter]
    exact List.filter_congr fun x _ => Bool.and_self _

/-- C5: the price distribution of lines 90-92 lists strictly increasing
prices; a price occurs among the pairs exactly when some record has it
(and, the prices being strictly increasing, in exactly one pair); each
pair's count is the number of records with that price; and the counts
sum to the size of the subset. -/
theorem priceDistribution_spec (subset : List Listing) :
    List.Pairwise (fun a b : ℚ => a < b) ((priceDistribution subset).map Prod.fst) ∧
      (∀ q : ℚ, q ∈ (priceDistribution subset).map Prod.fst ↔ q ∈ subset.map Listing.p) ∧
      (∀ pr ∈ priceDistribution subset, pr.2 = (subset.map Listing.p).count pr.1) ∧
      ((priceDistribution subset).map Prod.snd).sum = subset.length := by
  have hperm :
      (List.insertionSort (fun a b : ℚ => a ≤ b) (subset.map Listing.p).dedup).Perm
        (subset.map Listing.p).dedup :=
    List.perm_insertionSort _ _
  have hfst : (priceDistribution subset).map Prod.fst =
      List.insertionSort (fun a b : ℚ => a ≤ b) (subset.map Listing.p).dedup := by
    rw [priceDistribution_eq, List.map_map]
    exact List.map_id _
  have hsnd : (priceDistribution subset).map Prod.snd =
      (List.insertionSort (fun a b : ℚ => a ≤ b) (subset.map Listing.p).dedup).map
        (fun q => (subset.map Listing.p).count q) := by
    rw [priceDistribution_eq, List.map_map]
    rfl
  refine ⟨?_, ?_, ?_, ?_⟩
  · rw [hfst]
    have hsorted := List.sorted_insertionSort (fun a b : ℚ => a ≤ b)
      (subset.map Listing.p).dedup
    have hnodup := hperm.symm.nodup (List.nodup_dedup (subset.map Listing.p))
    exact List.Pairwise.imp₂ (fun a b hle hne => lt_of_le_of_ne hle hne) hsorted hnodup
  · intro q
    rw [hfst, hperm.mem_iff, List.mem_dedup]
  · intro pr hpr
    rw [priceDistribution_eq] at hpr
    rcases List.mem_map.mp hpr with ⟨q, _, rfl⟩
    rfl
  · rw [hsnd, (hperm.map (fun q => (subset.map Listing.p).count q)).sum_eq,
      List.sum_map_count_dedup_eq_length, List.length_map]

/-- C7: when the id filter is active (non-empty pattern), a record whose
id cell is missing is excluded from the filter output — the `na=False`
of line 62 turns the missing cell into a non-match instead of an error
(the embedded pipeline is a total function). -/
theorem missing_id_excluded_when_id_filter_active
    (df : List Listing) (c : Criteria) (x : Listing)
    (hactive : c.filter_id ≠ "") (hid : x.id = none) :
    x ∉ filterListings df c := by
  rw [filterListings_eq_filter]
  intro hmem
  have hkeep := (List.mem_filter.mp hmem).2
  simp only [specRetains, Bool.and_eq_true, Bool.or_eq_true, beq_iff_eq] at hkeep
  obtain ⟨-, -, h₃, -⟩ := hkeep
  rcases h₃ with h | h
  · exact hactive h
  · rw [hid] at h
    exact absurd h (by simp [idContains])

/-- C7 witness: a concrete record with a missing id is dropped by a
concrete criteria set whose id filter is active. -/
theorem missing_id_excluded_witness :
    cIdActive.filter_id ≠ "" ∧ nilIdListing.id = none ∧
      nilIdListing ∉ filterListings [nilIdListing] cIdActive :=
  ⟨by decide, rfl,
    missing_id_excluded_when_id_filter_active [nilIdListing] cIdActive nilIdListing
      (by decide) rfl⟩

/-- C8: the flag of lines 110 and 122 is true exactly when the subset
holds two records with different timestamps, i.e. two or more distinct
timestamp values; in particular it is false on the empty subset and on a
subset with a single shared timestamp. -/
theorem hasMultipleDistinctTimestamps_iff (subset : List Listing) :
    hasMultipleDistinctTimestamps subset = true ↔
      ∃ t₁ t₂ : ℕ, t₁ ∈ subset.map Listing.timestamp ∧
        t₂ ∈ subset.map Listing.timestamp ∧ t₁ ≠ t₂ := by
  simp only [hasMultipleDistinctTimestamps, decide_eq_true_eq]
  exact one_lt_dedup_length_iff _

/-- C9: one rerun of the pipeline only writes the derived values
(`filtered_df`, the summary, the distribution, the time-sorted view and
the trend flag); the cached source frame `df` is left exactly as it was. -/
theorem pipeline_preserves_source (c : Criteria) (s : AppState) :
    (runPipeline c s).df = s.df := rfl

/-- C10: the four sub-filter masks commute — applied in any order (any
permutation of the implementation order) they produce exactly the subset
the implementation order (section, row, id, price) produces, because
each mask is a pure selection and boolean conjunction is commutative. -/
theorem subfilters_commute (fs : List SubFilter) (c : Criteria) (l : List Listing)
    (h : fs.Perm implOrder) :
    applyAll fs c l = filterListings l c := by
  rw [applyAll_eq_filter, filterListings_eq_applyAll, applyAll_eq_filter]
  exact List.filter_congr fun x _ => all_of_perm h (fun f => subPred f c x)

/-- C10 witness: the fully reversed order (price, id, row, section) on a
concrete record set and criteria gives the implementation's subset. -/
theorem subfilters_commute_witness :
    List.Perm [SubFilter.price, SubFilter.idf, SubFilter.row, SubFilter.sec] implOrder ∧
      applyAll [SubFilter.price, SubFilter.idf, SubFilter.row, SubFilter.sec]
          cIdActive [okListing] =
        filterListings [okListing] cIdActive :=
  ⟨by decide, subfilters_commute _ cIdActive [okListing] (by decide)⟩
